import Mathlib

/-!
Shallow embedding of the score/certificate/payment logic of the
`realieltscode` repository (Certificate.tsx and PaymentModal.tsx, the
latter bundling the `verify-payment` edge-function handler), together
with theorems settling the specification claims about it.
-/

namespace RealIelts

/-! ### Level Classifier (Certificate.tsx, `scoreToCefr`, lines 30-38) -/

/-- Embedding of `scoreToCefr` from Certificate.tsx: a cascade of
`score >= threshold` tests, highest threshold first. -/
def scoreToCefr (score : Int) : String :=
  if score ≥ 86 then "C2"
  else if score ≥ 71 then "C1"
  else if score ≥ 51 then "B2"
  else if score ≥ 41 then "B1"
  else if score ≥ 21 then "A2"
  else if score ≥ 11 then "A1"
  else "A0"

/-- Embedding of `getScoreRange` from Certificate.tsx (lines 40-48):
the same threshold cascade, returning the display range string. -/
def getScoreRange (score : Int) : String :=
  if score ≥ 86 then "86-100"
  else if score ≥ 71 then "71-85"
  else if score ≥ 51 then "51-70"
  else if score ≥ 41 then "41-50"
  else if score ≥ 21 then "21-40"
  else if score ≥ 11 then "11-20"
  else "0-10"

/-- Rank of a CEFR band label, used to compare bands (A0 lowest, C2 highest). -/
def cefrRank (level : String) : Nat :=
  if level = "A0" then 0
  else if level = "A1" then 1
  else if level = "A2" then 2
  else if level = "B1" then 3
  else if level = "B2" then 4
  else if level = "C1" then 5
  else 6

/-- The seven CEFR band labels the classifier can produce. -/
def cefrLevels : List String := ["A0", "A1", "A2", "B1", "B2", "C1", "C2"]

/-- The display range associated to each CEFR band by `getScoreRange`. -/
def rangeOfLevel (level : String) : String :=
  if level = "C2" then "86-100"
  else if level = "C1" then "71-85"
  else if level = "B2" then "51-70"
  else if level = "B1" then "41-50"
  else if level = "A2" then "21-40"
  else if level = "A1" then "11-20"
  else "0-10"

/-! ### Aggregate Scorer (Certificate.tsx, lines 91-95) -/

/-- JavaScript `Math.round`: rounds to the nearest integer, with a
fractional part of exactly 0.5 rounding toward positive infinity
(`Math.round x = ⌊x + 0.5⌋`). -/
def jsRound (q : ℚ) : Int := ⌊q + 1/2⌋

/-- Round half away from zero, the rounding mode the spec names:
a fractional part of exactly 0.5 moves away from zero. -/
def roundHalfAwayFromZero (q : ℚ) : Int :=
  if 0 ≤ q then ⌊q + 1/2⌋ else -⌊-q + 1/2⌋

/-- Embedding of the overall-score computation
`Math.round((listening + reading + writing + speaking) / 4)`
from Certificate.tsx line 95. -/
def aggregate (listening reading writing speaking : Int) : Int :=
  jsRound (((listening + reading + writing + speaking : Int) : ℚ) / 4)

/-! ### Certification Record Builder (Certificate.tsx, `fetchCertificateData`, lines 91-107) -/

/-- A calendar date, the result of parsing the stored attempt `test_date`
timestamp (the `new Date(...)` parse itself is runtime behavior, out of the
embedded logic). -/
structure CalendarDate where
  year : Nat
  month : Nat
  day : Nat
deriving DecidableEq

/-- The raw attempt record: per-skill scores, each possibly null
(`attempt.listening_score` etc. are nullable numeric columns), plus the
test date. -/
structure Attempt where
  listening_score : Option ℚ
  reading_score : Option ℚ
  writing_score : Option ℚ
  speaking_score : Option ℚ
  test_date : CalendarDate
deriving DecidableEq

/-- Abbreviated en-US month names, as produced by the ECMA-402
`month: "short"` option for the `en-US` locale. -/
def monthShort (m : Nat) : String :=
  if m = 1 then "Jan" else if m = 2 then "Feb" else if m = 3 then "Mar"
  else if m = 4 then "Apr" else if m = 5 then "May" else if m = 6 then "Jun"
  else if m = 7 then "Jul" else if m = 8 then "Aug" else if m = 9 then "Sep"
  else if m = 10 then "Oct" else if m = 11 then "Nov" else "Dec"

/-- Zero-padded two-digit rendering of a day number, as produced by the
ECMA-402 `day: "2-digit"` option. -/
def twoDigit (n : Nat) : String :=
  if n < 10 then "0" ++ toString n else toString n

/-- Models the external formatter the code invokes at Certificate.tsx
line 103: `toLocaleDateString("en-US", \x7b day: "2-digit", month: "short",
year: "numeric" \x7d)`. For the `en-US` locale this produces the order
abbreviated-month, space, two-digit day, comma, space, numeric year
(for example "Mar 05, 2024"). -/
def formatTestDate (d : CalendarDate) : String :=
  monthShort d.month ++ " " ++ twoDigit d.day ++ ", " ++ toString d.year

/-- Modelled from the spec words only (for comparison with
`formatTestDate`): the pattern `DD Mon YYYY` the spec claims, day first
(for example "05 Mar 2024"). -/
def specFormatTestDate (d : CalendarDate) : String :=
  twoDigit d.day ++ " " ++ monthShort d.month ++ " " ++ toString d.year

/-- The per-skill integer scores of the certificate view-model. -/
structure CertificateScores where
  listening : Int
  reading : Int
  writing : Int
  speaking : Int
deriving DecidableEq

/-- The five CEFR labels of the certificate view-model. -/
structure CertificateCefr where
  overall : String
  listening : String
  reading : String
  writing : String
  speaking : String
deriving DecidableEq

/-- The certificate view-model fields derived from the attempt record
(name and certificate id come from other stores and are not derived
from the attempt, so they are not part of this embedding). -/
structure CertificateData where
  testDate : String
  totalScore : Int
  cefr : CertificateCefr
  scores : CertificateScores
deriving DecidableEq

/-- Embedding of the score/level/date derivation of `fetchCertificateData`
(Certificate.tsx lines 91-107): each skill score is
`Math.round(attempt.x_score ?? 0)`, the total is
`Math.round(sum / 4)`, all five levels come from `scoreToCefr`, and the
test date is formatted with the en-US locale formatter. -/
def buildCertificateData (attempt : Attempt) : CertificateData :=
  let listeningScore := jsRound (attempt.listening_score.getD 0)
  let readingScore := jsRound (attempt.reading_score.getD 0)
  let writingScore := jsRound (attempt.writing_score.getD 0)
  let speakingScore := jsRound (attempt.speaking_score.getD 0)
  let totalScore := jsRound
    (((listeningScore + readingScore + writingScore + speakingScore : Int) : ℚ) / 4)
  { testDate := formatTestDate attempt.test_date
    totalScore := totalScore
    cefr :=
      { overall := scoreToCefr totalScore
        listening := scoreToCefr listeningScore
        reading := scoreToCefr readingScore
        writing := scoreToCefr writingScore
        speaking := scoreToCefr speakingScore }
    scores :=
      { listening := listeningScore
        reading := readingScore
        writing := writingScore
        speaking := speakingScore } }

/-! ### Payment Gate: the modal flow (PaymentModal.tsx) -/

/-- One row of the `payment_transactions` ledger, with the columns the
code reads and writes. -/
structure PaymentTransaction where
  user_id : String
  amount : Nat
  purpose : String
  reference : String
  status : String
deriving DecidableEq

/-- The transaction ledger: the persisted `payment_transactions` rows. -/
abbrev Ledger := List PaymentTransaction

/-- PaymentModal.tsx line 29: the fixed amount (KES 2,500 in subunits). -/
def paystackAmount : Nat := 250000

/-- PaymentModal.tsx line 27: the reference is the time-based string
`new Date().getTime().toString()`. -/
def paystackReference (nowMs : Nat) : String := toString nowMs

/-- The externally visible persistence actions of the modal flow, in
order: an insert into `payment_transactions`, or an invocation of the
`verify-payment` function on a reference. -/
inductive LedgerAction where
  | insertRow (t : PaymentTransaction)
  | invokeVerify (reference : String)
deriving DecidableEq

/-- Embedding of `handlePaymentSuccess` (PaymentModal.tsx lines 37-62),
the success callback the gateway fires after its flow completes: it
first inserts a row with the reference of the modal and status
"success", then invokes `verify-payment` on that reference. -/
def handlePaymentSuccessActions (userId : String) (nowMs : Nat) : List LedgerAction :=
  [ .insertRow
      { user_id := userId
        amount := paystackAmount
        purpose := "reattempt"
        reference := paystackReference nowMs
        status := "success" },
    .invokeVerify (paystackReference nowMs) ]

/-- The persistence actions the modal performs before the external
gateway flow begins: none. The only `payment_transactions` write in
PaymentModal.tsx sits inside `handlePaymentSuccess`, which the gateway
calls only after its own flow has completed; opening the Paystack flow
touches no ledger state. -/
def modalActionsBeforeGateway : List LedgerAction := []

/-- Apply one persistence action to the ledger. A supabase `insert`
appends a row; the `invokeVerify` call itself writes nothing (the
invoked handler is modelled separately as `verifyPaymentHandler`). -/
def applyAction (l : Ledger) : LedgerAction → Ledger
  | .insertRow t => l ++ [t]
  | .invokeVerify _ => l

/-- Apply a list of persistence actions to the ledger, in order. -/
def applyActions (acts : List LedgerAction) (l : Ledger) : Ledger :=
  acts.foldl applyAction l

/-! ### Payment Gate: the `verify-payment` handler -/

/-- The verify-by-reference response of the gateway as the handler reads it:
`verifyRes.ok`, `verifyJson?.data?.status`, `verifyJson?.data?.amount`. -/
structure VerifyJson where
  ok : Bool
  status : Option String
  amount : Option Nat
deriving DecidableEq

/-- The HTTP response of the handler, one constructor per `return` in the
source: 500 "missing env", 400 "missing reference", 502 with the gateway
body, 500 with the update error, or 200 with `\x7b status, amount \x7d`. -/
inductive HandlerResponse where
  | missingEnv
  | missingReference
  | gatewayError (body : VerifyJson)
  | updateError
  | ok (status : Option String) (amount : Option Nat)
deriving DecidableEq

/-- Whether the response is the 200 success response. -/
def HandlerResponse.isOk : HandlerResponse → Bool
  | .ok _ _ => true
  | _ => false

/-- Embedding of the supabase
`update(\x7b status, paystack_response \x7d).eq("reference", reference)`:
every row whose `reference` column equals the given reference gets the
new status; all other rows are untouched. -/
def updateByReference (ref : String) (newStatus : String) (l : Ledger) : Ledger :=
  l.map fun t => if t.reference = ref then { t with status := newStatus } else t

/-- Embedding of the `verify-payment` handler (the second document in
PaymentModal.tsx): checks env configuration, requires a truthy
`reference` (absent or empty is falsy, hence 400), calls the gateway
verify endpoint, returns 502 when that call is not ok, otherwise updates
every ledger row with that reference to "verified" when the gateway
status is "success" and to "failed" otherwise, and returns 200 with the
gateway-reported status and amount. `dbOk` models whether the supabase
update itself errors (the `update.error` check in the source); an
errored update leaves the ledger unchanged and returns 500. -/
def verifyPaymentHandler (envOk : Bool) (reference : Option String)
    (gateway : String → VerifyJson) (dbOk : Bool) (ledger : Ledger) :
    Ledger × HandlerResponse :=
  if !envOk then (ledger, .missingEnv)
  else
    match reference with
    | none => (ledger, .missingReference)
    | some ref =>
      if ref = "" then (ledger, .missingReference)
      else
        let verifyJson := gateway ref
        if !verifyJson.ok then (ledger, .gatewayError verifyJson)
        else if !dbOk then (ledger, .updateError)
        else
          (updateByReference ref
            (if verifyJson.status = some "success" then "verified" else "failed") ledger,
           .ok verifyJson.status verifyJson.amount)

/-! ### Concrete sample data used by witnesses and counterexamples -/

/-- The attempt of the builder example in the spec: listening null, the
other three skills 55, test date 2024-03-05. -/
def exampleAttempt : Attempt :=
  { listening_score := none
    reading_score := some 55
    writing_score := some 55
    speaking_score := some 55
    test_date := ⟨2024, 3, 5⟩ }

/-- A sample persisted transaction row. -/
def sampleRow : PaymentTransaction :=
  { user_id := "user-1"
    amount := 250000
    purpose := "reattempt"
    reference := "1700000000000"
    status := "success" }

/-- A gateway stub whose verify endpoint always reports success. -/
def successGateway : String → VerifyJson :=
  fun _ => ⟨true, some "success", some 250000⟩

/-! ## Theorems settling the claims -/

/-- Helper: the row update keyed by reference is idempotent. -/
theorem updateByReference_idem (ref st : String) (l : Ledger) :
    updateByReference ref st (updateByReference ref st l) = updateByReference ref st l := by
  unfold updateByReference
  rw [List.map_map]
  apply List.map_congr_left
  intro t _
  by_cases h : t.reference = ref <;> simp [h]

/-- Helper: the row update keyed by reference leaves a ledger without
that reference unchanged. -/
theorem updateByReference_absent (ref st : String) (l : Ledger)
    (h : ∀ t ∈ l, t.reference ≠ ref) : updateByReference ref st l = l := by
  induction l with
  | nil => rfl
  | cons t ts ih =>
    have ht : t.reference ≠ ref := h t (List.mem_cons_self t ts)
    have hts := ih fun t' ht' => h t' (List.mem_cons_of_mem t ht')
    simp only [updateByReference, List.map_cons, if_neg ht] at hts ⊢
    rw [hts]

/-- C1, counterexample: at the concrete initiation (user "user-1", clock
1700000000000), the ledger visible when the external gateway flow begins
holds no row at all — in particular none with the generated reference and
status "pending" — and the only insert the flow ever performs carries
status "success", inside the post-gateway success callback. -/
theorem initiate_pending_before_gateway_cx :
    applyActions modalActionsBeforeGateway ([] : Ledger) = [] ∧
    (¬ ∃ t ∈ applyActions modalActionsBeforeGateway ([] : Ledger),
        t.reference = paystackReference 1700000000000 ∧ t.status = "pending") ∧
    handlePaymentSuccessActions "user-1" 1700000000000 =
      [ .insertRow
          { user_id := "user-1", amount := 250000, purpose := "reattempt",
            reference := "1700000000000", status := "success" },
        .invokeVerify "1700000000000" ] := by
  refine ⟨rfl, ?_, ?_⟩ <;> decide

/-- C1, amended: the modal persists no ledger row before the external
gateway flow begins; the transaction row is inserted only by the
post-gateway success callback, with the time-based reference and status
"success" (not "pending"), and that insert precedes the verify-payment
invocation. -/
theorem modal_persists_success_only_after_gateway (userId : String) (nowMs : Nat)
    (ledger : Ledger) :
    applyActions modalActionsBeforeGateway ledger = ledger ∧
    applyActions (handlePaymentSuccessActions userId nowMs) ledger =
      ledger ++ [{ user_id := userId, amount := paystackAmount, purpose := "reattempt",
                   reference := paystackReference nowMs, status := "success" }] ∧
    (∀ t ∈ applyActions (handlePaymentSuccessActions userId nowMs) ledger,
      t ∉ ledger → t.status = "success") ∧
    handlePaymentSuccessActions userId nowMs =
      [ .insertRow
          { user_id := userId, amount := paystackAmount, purpose := "reattempt",
            reference := paystackReference nowMs, status := "success" },
        .invokeVerify (paystackReference nowMs) ] := by
  have hres : applyActions (handlePaymentSuccessActions userId nowMs) ledger =
      ledger ++ [{ user_id := userId, amount := paystackAmount, purpose := "reattempt",
                   reference := paystackReference nowMs, status := "success" }] := rfl
  refine ⟨rfl, hres, ?_, rfl⟩
  intro t ht hnot
  rw [hres, List.mem_append] at ht
  rcases ht with h | h
  · exact absurd h hnot
  · rw [List.mem_singleton] at h
    subst h
    rfl

/-- C2, counterexample: with an empty ledger (so the reference "9999" is
unknown) and the gateway reporting success, the handler mutates nothing
but answers with the 200 success response carrying the gateway status
and amount — not with any error response. -/
theorem reconcile_unknown_reference_cx :
    (verifyPaymentHandler true (some "9999") successGateway true []).1 = [] ∧
    (verifyPaymentHandler true (some "9999") successGateway true []).2 =
      HandlerResponse.ok (some "success") (some 250000) ∧
    ((verifyPaymentHandler true (some "9999") successGateway true []).2).isOk = true := by
  refine ⟨?_, ?_, ?_⟩ <;> decide

/-- C2, amended: for every reference not present in the ledger the
handler performs no ledger mutation, in every configuration and on every
gateway outcome; but it performs no ledger-existence check, so when the
gateway verify succeeds it returns the 200 success response carrying the
gateway-reported status and amount rather than an UnknownReference
error. -/
theorem reconcile_unknown_reference_no_mutation (envOk dbOk : Bool) (ref : String)
    (gateway : String → VerifyJson) (ledger : Ledger)
    (habsent : ∀ t ∈ ledger, t.reference ≠ ref) :
    (verifyPaymentHandler envOk (some ref) gateway dbOk ledger).1 = ledger ∧
    (envOk = true → dbOk = true → ref ≠ "" → (gateway ref).ok = true →
      (verifyPaymentHandler envOk (some ref) gateway dbOk ledger).2 =
        HandlerResponse.ok (gateway ref).status (gateway ref).amount) := by
  constructor
  · cases envOk with
    | false => rfl
    | true =>
      by_cases h0 : ref = ""
      · simp [verifyPaymentHandler, h0]
      · by_cases h1 : (gateway ref).ok
        · cases dbOk with
          | false => simp [verifyPaymentHandler, h0, h1]
          | true =>
            simp only [verifyPaymentHandler, Bool.not_true, Bool.false_eq_true, if_false,
              if_neg h0, h1, Bool.not_false, if_true]
            exact updateByReference_absent _ _ _ habsent
        · simp [verifyPaymentHandler, h0, h1]
  · intro he hd hr hok
    subst he; subst hd
    simp [verifyPaymentHandler, hr, hok]

/-- C2, witness: `reconcile_unknown_reference_no_mutation` at the
concrete one-row ledger whose reference differs from the queried one. -/
theorem reconcile_unknown_reference_no_mutation_witness :
    (∀ t ∈ ([sampleRow] : Ledger), t.reference ≠ "other") ∧
    ((verifyPaymentHandler true (some "other") successGateway true [sampleRow]).1 =
        [sampleRow] ∧
     (true = true → true = true → "other" ≠ "" → (successGateway "other").ok = true →
       (verifyPaymentHandler true (some "other") successGateway true [sampleRow]).2 =
         HandlerResponse.ok (successGateway "other").status (successGateway "other").amount)) :=
  ⟨by decide,
   reconcile_unknown_reference_no_mutation true true "other" successGateway [sampleRow]
     (by decide)⟩

/-- C3: for a reference present in the ledger, on the completed
verification path (configuration present, gateway call ok, update ok)
the handler rewrites exactly the rows with that reference, storing
"verified" if and only if the gateway reports "success" and "failed" for
any other reported status. -/
theorem reconcile_verifies_iff_gateway_success (ledger : Ledger) (ref : String)
    (gateway : String → VerifyJson)
    (hpresent : ∃ t ∈ ledger, t.reference = ref)
    (href : ref ≠ "") (hok : (gateway ref).ok = true) :
    (verifyPaymentHandler true (some ref) gateway true ledger).1 =
      updateByReference ref
        (if (gateway ref).status = some "success" then "verified" else "failed") ledger ∧
    (∃ t ∈ (verifyPaymentHandler true (some ref) gateway true ledger).1,
      t.reference = ref) ∧
    ∀ t ∈ (verifyPaymentHandler true (some ref) gateway true ledger).1,
      t.reference = ref →
        (t.status = "verified" ↔ (gateway ref).status = some "success") ∧
        ((gateway ref).status ≠ some "success" → t.status = "failed") := by
  have h1 : (verifyPaymentHandler true (some ref) gateway true ledger).1 =
      updateByReference ref
        (if (gateway ref).status = some "success" then "verified" else "failed") ledger := by
    simp [verifyPaymentHandler, href, hok]
  refine ⟨h1, ?_, ?_⟩
  · obtain ⟨t, ht, htr⟩ := hpresent
    rw [h1]
    simp only [updateByReference]
    refine ⟨_, List.mem_map_of_mem _ ht, ?_⟩
    by_cases hc : t.reference = ref <;> simp [hc, htr]
  · rw [h1]
    intro t ht htr
    simp only [updateByReference, List.mem_map] at ht
    obtain ⟨t0, ht0, rfl⟩ := ht
    by_cases hc : t0.reference = ref
    · simp only [if_pos hc]
      by_cases hs : (gateway ref).status = some "success"
      · simp [hs]
      · simp [hs]
    · rw [if_neg hc] at htr
      exact absurd htr hc

/-- C3, witness: `reconcile_verifies_iff_gateway_success` at the
concrete one-row ledger holding the queried reference, with the gateway
reporting success. -/
theorem reconcile_verifies_iff_gateway_success_witness :
    (∃ t ∈ ([sampleRow] : Ledger), t.reference = "1700000000000") ∧
    ((verifyPaymentHandler true (some "1700000000000") successGateway true [sampleRow]).1 =
      updateByReference "1700000000000"
        (if (successGateway "1700000000000").status = some "success" then "verified"
         else "failed") [sampleRow] ∧
     (∃ t ∈ (verifyPaymentHandler true (some "1700000000000") successGateway true
        [sampleRow]).1, t.reference = "1700000000000") ∧
     ∀ t ∈ (verifyPaymentHandler true (some "1700000000000") successGateway true
        [sampleRow]).1,
       t.reference = "1700000000000" →
         (t.status = "verified" ↔
           (successGateway "1700000000000").status = some "success") ∧
         ((successGateway "1700000000000").status ≠ some "success" →
           t.status = "failed")) :=
  ⟨by decide,
   reconcile_verifies_iff_gateway_success [sampleRow] "1700000000000" successGateway
     (by decide) (by decide) rfl⟩

/-- C4: the Level Classifier satisfies the boundary table exactly at all
twelve listed scores. -/
theorem classify_boundary_table :
    scoreToCefr 10 = "A0" ∧ scoreToCefr 11 = "A1" ∧ scoreToCefr 20 = "A1" ∧
    scoreToCefr 21 = "A2" ∧ scoreToCefr 40 = "A2" ∧ scoreToCefr 41 = "B1" ∧
    scoreToCefr 50 = "B1" ∧ scoreToCefr 51 = "B2" ∧ scoreToCefr 70 = "B2" ∧
    scoreToCefr 71 = "C1" ∧ scoreToCefr 85 = "C1" ∧ scoreToCefr 86 = "C2" := by
  decide

/-- C5: over the ScoreSet domain (each skill in [0,100]) the overall
score is round((listening + reading + writing + speaking) / 4) with a
fractional part of exactly 0.5 rounding upward away from zero, and the
two reference values hold: aggregate 70 80 90 60 = 75 and
aggregate 0 0 0 1 = 0. -/
theorem aggregate_rounds_half_up (listening reading writing speaking : Int)
    (hl : 0 ≤ listening ∧ listening ≤ 100) (hr : 0 ≤ reading ∧ reading ≤ 100)
    (hw : 0 ≤ writing ∧ writing ≤ 100) (hs : 0 ≤ speaking ∧ speaking ≤ 100) :
    aggregate listening reading writing speaking =
      roundHalfAwayFromZero
        (((listening + reading + writing + speaking : Int) : ℚ) / 4) ∧
    aggregate 70 80 90 60 = 75 ∧ aggregate 0 0 0 1 = 0 := by
  refine ⟨?_, ?_, ?_⟩
  · have hsum : (0 : Int) ≤ listening + reading + writing + speaking := by omega
    have h0 : (0 : ℚ) ≤ ((listening + reading + writing + speaking : Int) : ℚ) := by
      exact_mod_cast hsum
    have hge : (0 : ℚ) ≤ ((listening + reading + writing + speaking : Int) : ℚ) / 4 := by
      linarith
    unfold aggregate jsRound roundHalfAwayFromZero
    rw [if_pos hge]
  · unfold aggregate jsRound; norm_num
  · unfold aggregate jsRound; norm_num

/-- C5, witness: `aggregate_rounds_half_up` at the concrete scores
70, 80, 90, 60. -/
theorem aggregate_rounds_half_up_witness :
    ((0 : Int) ≤ 70 ∧ (70 : Int) ≤ 100) ∧
    (aggregate 70 80 90 60 =
      roundHalfAwayFromZero (((70 + 80 + 90 + 60 : Int) : ℚ) / 4) ∧
     aggregate 70 80 90 60 = 75 ∧ aggregate 0 0 0 1 = 0) :=
  ⟨by decide,
   aggregate_rounds_half_up 70 80 90 60 (by decide) (by decide) (by decide) (by decide)⟩

/-- C6: the builder treats a null listening score as 0, derives the
overall score from the four defaulted skill scores exactly by the
Aggregate Scorer, classifies all five scores with the Level Classifier,
and on the spec example (null, 55, 55, 55) yields listening 0, overall
41 and overall level B1. -/
theorem builder_defaults_null_to_zero (a : Attempt) (h : a.listening_score = none) :
    (buildCertificateData a).scores.listening = 0 ∧
    (buildCertificateData a).totalScore =
      aggregate (buildCertificateData a).scores.listening
        (buildCertificateData a).scores.reading
        (buildCertificateData a).scores.writing
        (buildCertificateData a).scores.speaking ∧
    (buildCertificateData a).cefr.overall =
      scoreToCefr (buildCertificateData a).totalScore ∧
    (buildCertificateData a).cefr.listening =
      scoreToCefr (buildCertificateData a).scores.listening ∧
    (buildCertificateData a).cefr.reading =
      scoreToCefr (buildCertificateData a).scores.reading ∧
    (buildCertificateData a).cefr.writing =
      scoreToCefr (buildCertificateData a).scores.writing ∧
    (buildCertificateData a).cefr.speaking =
      scoreToCefr (buildCertificateData a).scores.speaking ∧
    (a.reading_score = some 55 → a.writing_score = some 55 → a.speaking_score = some 55 →
      (buildCertificateData a).totalScore = 41 ∧
      (buildCertificateData a).cefr.overall = "B1") := by
  refine ⟨?_, rfl, rfl, rfl, rfl, rfl, rfl, ?_⟩
  · simp [buildCertificateData, h, jsRound]
    norm_num
  · intro h2 h3 h4
    have ht : (buildCertificateData a).totalScore = 41 := by
      simp [buildCertificateData, h, h2, h3, h4, jsRound]
      norm_num
    refine ⟨ht, ?_⟩
    have hov : (buildCertificateData a).cefr.overall =
        scoreToCefr (buildCertificateData a).totalScore := rfl
    rw [hov, ht]
    decide

/-- C6, witness: `builder_defaults_null_to_zero` at the concrete attempt
with listening null and the other skills 55. -/
theorem builder_defaults_null_to_zero_witness :
    exampleAttempt.listening_score = none ∧
    ((buildCertificateData exampleAttempt).scores.listening = 0 ∧
     (buildCertificateData exampleAttempt).totalScore =
       aggregate (buildCertificateData exampleAttempt).scores.listening
         (buildCertificateData exampleAttempt).scores.reading
         (buildCertificateData exampleAttempt).scores.writing
         (buildCertificateData exampleAttempt).scores.speaking ∧
     (buildCertificateData exampleAttempt).cefr.overall =
       scoreToCefr (buildCertificateData exampleAttempt).totalScore ∧
     (buildCertificateData exampleAttempt).cefr.listening =
       scoreToCefr (buildCertificateData exampleAttempt).scores.listening ∧
     (buildCertificateData exampleAttempt).cefr.reading =
       scoreToCefr (buildCertificateData exampleAttempt).scores.reading ∧
     (buildCertificateData exampleAttempt).cefr.writing =
       scoreToCefr (buildCertificateData exampleAttempt).scores.writing ∧
     (buildCertificateData exampleAttempt).cefr.speaking =
       scoreToCefr (buildCertificateData exampleAttempt).scores.speaking ∧
     (exampleAttempt.reading_score = some 55 → exampleAttempt.writing_score = some 55 →
       exampleAttempt.speaking_score = some 55 →
       (buildCertificateData exampleAttempt).totalScore = 41 ∧
       (buildCertificateData exampleAttempt).cefr.overall = "B1")) :=
  ⟨rfl, builder_defaults_null_to_zero exampleAttempt rfl⟩

/-- C7: the classifier is total over the integers — it always lands in
the seven-band enumeration, with every negative score in A0 and every
score above 100 in C2 — and monotone: a lower score never gets a higher
band. -/
theorem classify_total_monotone (a b : Int) (hab : a ≤ b) :
    cefrRank (scoreToCefr a) ≤ cefrRank (scoreToCefr b) ∧
    scoreToCefr a ∈ cefrLevels ∧
    (a < 0 → scoreToCefr a = "A0") ∧
    (100 < b → scoreToCefr b = "C2") := by
  refine ⟨?_, ?_, ?_, ?_⟩
  · unfold scoreToCefr
    split_ifs <;> first | decide | (exfalso; omega)
  · unfold scoreToCefr cefrLevels
    split_ifs <;> simp
  · intro ha
    unfold scoreToCefr
    split_ifs <;> first | rfl | (exfalso; omega)
  · intro hb
    unfold scoreToCefr
    split_ifs <;> first | rfl | (exfalso; omega)

/-- C7, witness: `classify_total_monotone` at the concrete pair 40 ≤ 55. -/
theorem classify_total_monotone_witness :
    (40 : Int) ≤ 55 ∧
    (cefrRank (scoreToCefr 40) ≤ cefrRank (scoreToCefr 55) ∧
     scoreToCefr 40 ∈ cefrLevels ∧
     ((40 : Int) < 0 → scoreToCefr 40 = "A0") ∧
     ((100 : Int) < 55 → scoreToCefr 55 = "C2")) :=
  ⟨by decide, classify_total_monotone 40 55 (by decide)⟩

/-- C8: reconcile is idempotent — with the gateway answering the same
way both times, running the handler twice produces the same ledger as
running it once, and when the gateway reports "success" every row with
the reference reads "verified" after the first call and still after the
second, never oscillating. -/
theorem reconcile_is_idempotent (ledger : Ledger) (ref : String)
    (gateway : String → VerifyJson)
    (hpresent : ∃ t ∈ ledger, t.reference = ref)
    (href : ref ≠ "") (hok : (gateway ref).ok = true) :
    (verifyPaymentHandler true (some ref) gateway true
        ((verifyPaymentHandler true (some ref) gateway true ledger).1)).1 =
      (verifyPaymentHandler true (some ref) gateway true ledger).1 ∧
    ((gateway ref).status = some "success" →
      (∀ t ∈ (verifyPaymentHandler true (some ref) gateway true ledger).1,
        t.reference = ref → t.status = "verified") ∧
      (∀ t ∈ (verifyPaymentHandler true (some ref) gateway true
          ((verifyPaymentHandler true (some ref) gateway true ledger).1)).1,
        t.reference = ref → t.status = "verified")) := by
  have h1 : ∀ l : Ledger, (verifyPaymentHandler true (some ref) gateway true l).1 =
      updateByReference ref
        (if (gateway ref).status = some "success" then "verified" else "failed") l := by
    intro l
    simp [verifyPaymentHandler, href, hok]
  have hver : ∀ l : Ledger, ∀ t ∈ updateByReference ref "verified" l,
      t.reference = ref → t.status = "verified" := by
    intro l t ht htr
    simp only [updateByReference, List.mem_map] at ht
    obtain ⟨t0, ht0, rfl⟩ := ht
    by_cases hc : t0.reference = ref
    · simp [hc]
    · rw [if_neg hc] at htr
      exact absurd htr hc
  constructor
  · rw [h1, h1, updateByReference_idem]
  · intro hs
    constructor
    · rw [h1, if_pos hs]
      exact hver ledger
    · rw [h1, h1, updateByReference_idem, if_pos hs]
      exact hver ledger

/-- C8, witness: `reconcile_is_idempotent` at the concrete one-row
ledger holding the queried reference, with the gateway reporting
success. -/
theorem reconcile_is_idempotent_witness :
    (∃ t ∈ ([sampleRow] : Ledger), t.reference = "1700000000000") ∧
    ((verifyPaymentHandler true (some "1700000000000") successGateway true
        ((verifyPaymentHandler true (some "1700000000000") successGateway true
          [sampleRow]).1)).1 =
      (verifyPaymentHandler true (some "1700000000000") successGateway true
        [sampleRow]).1 ∧
     ((successGateway "1700000000000").status = some "success" →
       (∀ t ∈ (verifyPaymentHandler true (some "1700000000000") successGateway true
          [sampleRow]).1,
         t.reference = "1700000000000" → t.status = "verified") ∧
       (∀ t ∈ (verifyPaymentHandler true (some "1700000000000") successGateway true
          ((verifyPaymentHandler true (some "1700000000000") successGateway true
            [sampleRow]).1)).1,
         t.reference = "1700000000000" → t.status = "verified"))) :=
  ⟨by decide,
   reconcile_is_idempotent [sampleRow] "1700000000000" successGateway
     (by decide) (by decide) rfl⟩

/-- C9, counterexample: at the date 2024-03-05 the en-US formatter the
code invokes renders "Mar 05, 2024" (month first), which differs from
the day-first "05 Mar 2024" the spec pattern DD Mon YYYY prescribes; the
builder carries the month-first string into the record. -/
theorem builder_date_format_cx :
    formatTestDate ⟨2024, 3, 5⟩ = "Mar 05, 2024" ∧
    specFormatTestDate ⟨2024, 3, 5⟩ = "05 Mar 2024" ∧
    formatTestDate ⟨2024, 3, 5⟩ ≠ specFormatTestDate ⟨2024, 3, 5⟩ ∧
    (buildCertificateData
      { listening_score := some 70, reading_score := some 70, writing_score := some 70,
        speaking_score := some 70, test_date := ⟨2024, 3, 5⟩ }).testDate =
      "Mar 05, 2024" := by
  refine ⟨?_, ?_, ?_, ?_⟩ <;> decide

/-- C9, amended: the builder formats the stored test date with the en-US
locale order Mon DD, YYYY — abbreviated month first, then two-digit day,
a comma, then the numeric year — not day-first DD Mon YYYY. -/
theorem builder_formats_date_month_first (a : Attempt) :
    (buildCertificateData a).testDate = formatTestDate a.test_date ∧
    formatTestDate ⟨2024, 3, 5⟩ = "Mar 05, 2024" ∧
    formatTestDate ⟨2023, 12, 9⟩ = "Dec 09, 2023" :=
  ⟨rfl, by decide, by decide⟩

/-- C10: at every integer score the display range returned by
`getScoreRange` is exactly the range of the band `scoreToCefr` assigns,
with the seven band-to-range associations as listed — the two cascades
induce the same partition of the integers. -/
theorem getScoreRange_agrees_with_scoreToCefr (s : Int) :
    getScoreRange s = rangeOfLevel (scoreToCefr s) ∧
    (scoreToCefr s, getScoreRange s) ∈
      [("C2", "86-100"), ("C1", "71-85"), ("B2", "51-70"), ("B1", "41-50"),
       ("A2", "21-40"), ("A1", "11-20"), ("A0", "0-10")] := by
  unfold getScoreRange scoreToCefr
  split_ifs <;> decide

end RealIelts
